import Mathlib

/-!
Shallow embedding of the chainsdata-mcp server (src/index.ts): the token
catalog lookup, Chainlink feed lookup, subgraph pool queries with retry and
backoff, and the multi-session HTTP adapter's registries, together with
proofs of the specified properties.

File reads (fs.readFileSync) are modelled by injected read functions, the
remote subgraph endpoint by an oracle of per-attempt outcomes, and the
session registries by explicit state passed through the request handlers.
-/

namespace ChainsData

/-- Token entry of a token-list file (interface Token in src/index.ts). -/
structure Token where
  chainId : Nat
  address : String
  name : String
  symbol : String
  decimals : Nat
  logoURI : String
deriving DecidableEq

/-- Parsed token-list file (interface TokenList in src/index.ts). -/
structure TokenList where
  name : String
  tokens : List Token
deriving DecidableEq

/-- Backing store of the token-lists directory: maps (list name, chain id) to
the parsed file content, or to the underlying error message when the file is
missing or unparsable. -/
abbrev TokenFS := String → Nat → Except String TokenList

/-- readTokenList: reads and parses token-lists/listName.chainId.json,
wrapping any read or parse failure in a descriptive error message. -/
def readTokenList (fs : TokenFS) (listName : String) (chainId : Nat) :
    Except String TokenList :=
  match fs listName chainId with
  | .ok tl => .ok tl
  | .error e =>
      .error ("Failed to read token list " ++ listName ++ "." ++ toString chainId
        ++ ".json: " ++ e)

/-- chainMapping: the static chain-name-to-chain-id table of src/index.ts. -/
def chainMapping : List (String × Nat) :=
  [("Ethereum", 1), ("BNB Smart Chain", 56), ("Gnosis", 100),
   ("Polygon", 137), ("Arbitrum", 42161), ("Base", 8453)]

/-- Error message for a chain name absent from chainMapping. -/
def unsupportedChainMsg (chain : String) : String :=
  "Unsupported chain: " ++ chain ++ ". Supported chains: " ++
    String.intercalate ", " (chainMapping.map Prod.fst)

/-- Result shape of findTokensBySymbols: the matched tokens and the optional
comma-joined string of unmatched query terms. -/
structure FindTokensResult where
  tokens : List Token
  notFound : Option String
deriving DecidableEq

/-- Char-wise lowercasing: the effect of String.prototype.toLowerCase on the
ASCII symbols, pair names and chain names the server compares. -/
def lowerAscii (s : String) : String := ⟨s.data.map Char.toLower⟩

/-- Whether a string is empty or whitespace-only, i.e. its trim() is "". -/
def isBlank (s : String) : Bool := s.data.all Char.isWhitespace

/-- The matching predicate of findTokensBySymbols: case-insensitive exact
equality between the entry's symbol and the query term
(t.symbol.toLowerCase() === symbol.toLowerCase()). -/
def symbolMatches (t : Token) (q : String) : Bool :=
  lowerAscii t.symbol == lowerAscii q

/-- The per-symbol accumulation loop of findTokensBySymbols: a term that is
empty or whitespace-only after trimming goes to the not-found list; otherwise
the first entry whose symbol matches case-insensitively is taken. -/
def findTokensLoop (entries : List Token) : List String → List Token × List String
  | [] => ([], [])
  | q :: rest =>
    let acc := findTokensLoop entries rest
    if isBlank q then (acc.1, q :: acc.2)
    else
      match entries.find? (fun t => symbolMatches t q) with
      | some t => (t :: acc.1, acc.2)
      | none => (acc.1, q :: acc.2)

/-- findTokensBySymbols of src/index.ts: rejects an empty symbols array,
resolves the chain name through chainMapping, reads the catalog keyed by
(list, chainId), and matches each term case-insensitively, reporting
unmatched terms comma-joined in notFound (present only when non-empty). -/
def findTokensBySymbols (fs : TokenFS) (symbols : List String)
    (chain : String) (list : String) : Except String FindTokensResult :=
  if symbols.isEmpty then .error "Symbols array cannot be empty"
  else
    match chainMapping.lookup chain with
    | none => .error (unsupportedChainMsg chain)
    | some chainId =>
      match readTokenList fs list chainId with
      | .error e => .error e
      | .ok tokenList =>
        let acc := findTokensLoop tokenList.tokens symbols
        .ok { tokens := acc.1,
              notFound := if acc.2.isEmpty then none
                          else some (String.intercalate ", " acc.2) }

/-- Spec-side description of which entry a query term selects: none for an
empty or whitespace-only term, otherwise the first case-insensitive match. -/
def matchedToken (entries : List Token) (q : String) : Option Token :=
  if isBlank q then none else entries.find? (fun t => symbolMatches t q)

/-- Spec-side description of when a query term goes unmatched. -/
def unmatchedTerm (entries : List Token) (q : String) : Bool :=
  isBlank q || (entries.find? (fun t => symbolMatches t q)).isNone

/-- Spec-side shape of the notFound field: absent when nothing went
unmatched, the comma-joined unmatched terms otherwise. -/
def joinedNotFound (l : List String) : Option String :=
  if l.isEmpty then none else some (String.intercalate ", " l)

/-- Chainlink feed entry of feeds.json (interface ChainlinkFeed). -/
structure ChainlinkFeed where
  name : String
  proxyAddress : String
  feedCategory : String
deriving DecidableEq

/-- Per-chain block of feeds.json (interface ChainData). -/
structure ChainData where
  baseUrl : String
  feeds : List ChainlinkFeed
deriving DecidableEq

/-- Parsed feeds.json: lowercase chain name to chain data, in the file's key
order (the order Object.entries iterates). -/
abbrev FeedsData := List (String × ChainData)

/-- Feed entry as returned by getFeedAddresses, with the chain it came from. -/
structure FoundFeed where
  name : String
  proxyAddress : String
  feedCategory : String
  chain : String
deriving DecidableEq

/-- Result shape of getFeedAddresses. -/
structure FeedsResult where
  feeds : List FoundFeed
  notFound : Option String
deriving DecidableEq

/-- The matching predicate of getFeedAddresses: case-insensitive exact
equality between the feed's name and the query pair. -/
def feedMatches (f : ChainlinkFeed) (pair : String) : Bool :=
  lowerAscii f.name == lowerAscii pair

/-- The per-pair loop of getFeedAddresses when a chain is given: whitespace
pairs go to the not-found list, otherwise the first matching feed of that
chain's feed set is taken, tagged with the normalized chain name. -/
def findFeedLoopChain (cd : ChainData) (normalizedChain : String) :
    List String → List FoundFeed × List String
  | [] => ([], [])
  | p :: rest =>
    let acc := findFeedLoopChain cd normalizedChain rest
    if isBlank p then (acc.1, p :: acc.2)
    else
      match cd.feeds.find? (fun f => feedMatches f p) with
      | some f => (⟨f.name, f.proxyAddress, f.feedCategory, normalizedChain⟩ :: acc.1, acc.2)
      | none => (acc.1, p :: acc.2)

/-- Search of all chains in registry order for the first chain containing a
feed matching the pair (the chain-less branch of getFeedAddresses). -/
def searchAllChains (entries : FeedsData) (pair : String) : Option FoundFeed :=
  match entries with
  | [] => none
  | (chainName, cd) :: rest =>
    match cd.feeds.find? (fun f => feedMatches f pair) with
    | some f => some ⟨f.name, f.proxyAddress, f.feedCategory, chainName⟩
    | none => searchAllChains rest pair

/-- The per-pair loop of getFeedAddresses when no chain is given. -/
def findFeedLoopAll (entries : FeedsData) : List String → List FoundFeed × List String
  | [] => ([], [])
  | p :: rest =>
    let acc := findFeedLoopAll entries rest
    if isBlank p then (acc.1, p :: acc.2)
    else
      match searchAllChains entries p with
      | some ff => (ff :: acc.1, acc.2)
      | none => (acc.1, p :: acc.2)

/-- Error message for a chain name absent from feeds.json. -/
def unsupportedFeedChainMsg (entries : FeedsData) (chain : String) : String :=
  "Unsupported chain: " ++ chain ++ ". Supported chains: " ++
    String.intercalate ", " (entries.map Prod.fst)

/-- getFeedAddresses of src/index.ts: rejects an empty pairs array, then
reads feeds.json (the rd argument models readFeedsData's outcome); with a
chain given it searches that chain's feed set, otherwise the first chain in
registry order containing a match per pair; unmatched pairs are comma-joined
in notFound (present only when non-empty). -/
def getFeedAddresses (rd : Except String FeedsData) (pairs : List String)
    (chain : Option String) : Except String FeedsResult :=
  if pairs.isEmpty then .error "Pairs array cannot be empty"
  else
    match rd with
    | .error e => .error e
    | .ok feedsData =>
      match chain with
      | some c =>
        let normalizedChain := lowerAscii c
        match feedsData.lookup normalizedChain with
        | none => .error (unsupportedFeedChainMsg feedsData c)
        | some cd =>
          let acc := findFeedLoopChain cd normalizedChain pairs
          .ok { feeds := acc.1,
                notFound := if acc.2.isEmpty then none
                            else some (String.intercalate ", " acc.2) }
      | none =>
        let acc := findFeedLoopAll feedsData pairs
        .ok { feeds := acc.1,
              notFound := if acc.2.isEmpty then none
                          else some (String.intercalate ", " acc.2) }

/-- Spec-side description of the feed a pair selects in one chain's set. -/
def matchedFeedChain (cd : ChainData) (normalizedChain : String) (p : String) :
    Option FoundFeed :=
  if isBlank p then none
  else (cd.feeds.find? (fun f => feedMatches f p)).map
    (fun f => ⟨f.name, f.proxyAddress, f.feedCategory, normalizedChain⟩)

/-- Spec-side description of when a pair goes unmatched in one chain's set. -/
def unmatchedPairChain (cd : ChainData) (p : String) : Bool :=
  isBlank p || (cd.feeds.find? (fun f => feedMatches f p)).isNone

/-- Subgraph response envelope: the data payload plus the optional errors
array (modelled as the list of error messages, empty when absent). -/
structure SubgraphResponse (α : Type) where
  data : α
  errors : List String
deriving DecidableEq

/-- Outcome of a single fetch of the subgraph endpoint, as observed by one
iteration of querySubgraph's loop: the fetch itself threw, the HTTP status
was not ok, or a JSON body arrived. -/
inductive AttemptOutcome (α : Type) where
  | transportError (msg : String)
  | httpError (status : Nat) (statusText : String)
  | response (r : SubgraphResponse α)
deriving DecidableEq

/-- One iteration body of querySubgraph's try block: a transport error or
non-ok status throws, a response with a non-empty errors array throws a
GraphQL error, otherwise the response is returned. -/
def runAttempt {α : Type} : AttemptOutcome α → Except String (SubgraphResponse α)
  | .transportError m => .error m
  | .httpError status statusText =>
      .error ("HTTP " ++ toString status ++ ": " ++ statusText)
  | .response r =>
      if r.errors.isEmpty then .ok r
      else .error ("GraphQL errors: " ++ String.intercalate ", " r.errors)

/-- The retry loop of querySubgraph, fuelled by the number of remaining
iterations (the source's for loop runs attempt = 1..retries and throws
"Unexpected error" should it ever fall through). The second component
collects the backoff delays slept, in order: 1000 * 2 ^ (attempt - 1)
milliseconds after each failed non-final attempt. -/
def querySubgraphLoop {α : Type} (outcomes : Nat → AttemptOutcome α)
    (retries : Nat) : Nat → Nat → Except String (SubgraphResponse α) × List Nat
  | 0, _ => (.error "Unexpected error in querySubgraph", [])
  | fuel + 1, attempt =>
    match runAttempt (outcomes attempt) with
    | .ok r => (.ok r, [])
    | .error msg =>
      if attempt = retries then
        (.error ("Failed to query subgraph after " ++ toString retries
          ++ " attempts: " ++ msg), [])
      else
        let acc := querySubgraphLoop outcomes retries fuel (attempt + 1)
        (acc.1, 1000 * 2 ^ (attempt - 1) :: acc.2)

/-- querySubgraph of src/index.ts: up to retries attempts (3 at every call
site), with exponential backoff between failed attempts, surfacing the last
error wrapped in a RemoteQueryFailed-style message when all attempts fail.
The network is modelled by the outcomes oracle giving each attempt's result. -/
def querySubgraph {α : Type} (outcomes : Nat → AttemptOutcome α)
    (retries : Nat) : Except String (SubgraphResponse α) × List Nat :=
  querySubgraphLoop outcomes retries retries 1

/-- Token descriptor inside a pool response (interfaces UniswapV3Token and
AerodromeToken, which are identical). -/
structure SubgraphToken where
  id : String
  symbol : String
  name : String
  decimals : String
deriving DecidableEq

/-- Uniswap V3 pool record. totalValueLockedUSD is carried as the rational
value that parseFloat extracts from the response's decimal string. -/
structure UniswapV3Pool where
  id : String
  feeTier : String
  token0 : SubgraphToken
  token1 : SubgraphToken
  totalValueLockedUSD : ℚ
  volumeUSD : String
  txCount : String
deriving DecidableEq

/-- Payload of a Uniswap V3 pools response (interface UniswapV3PoolsResponse). -/
structure UniswapV3PoolsResponse where
  pools : List UniswapV3Pool
deriving DecidableEq

/-- Aerodrome pool record, as UniswapV3Pool but with no fee tier. -/
structure AerodromePool where
  id : String
  totalValueLockedUSD : ℚ
  volumeUSD : String
  txCount : String
  token0 : SubgraphToken
  token1 : SubgraphToken
deriving DecidableEq

/-- Payload of an Aerodrome pools response (interface AerodromePoolsResponse). -/
structure AerodromePoolsResponse where
  pools : List AerodromePool
deriving DecidableEq

/-- Metadata block of a pool query result. -/
structure PoolsMetadata where
  chain : String
  totalResults : Nat
deriving DecidableEq

/-- Result shape of findUniswapV3Pools. -/
structure UniswapV3PoolsResult where
  pools : List UniswapV3Pool
  metadata : PoolsMetadata
deriving DecidableEq

/-- Result shape of findAerodromePools. -/
structure AerodromePoolsResult where
  pools : List AerodromePool
  metadata : PoolsMetadata
deriving DecidableEq

/-- uniswapV3SubgraphMapping: chain name to subgraph id. -/
def uniswapV3SubgraphMapping : List (String × String) :=
  [("Ethereum", "5zvR82QoaXYFyDEKLZ9t6v9adgnptxYpKpSbxtgVENFV"),
   ("Polygon", "3hCPRGf4z88VC5rsBKU5AA9FBBq5nF3jbKJG7VZCbhjm"),
   ("Base", "HMuAwufqZ1YCRmzL2SfHTVkzZovC9VL2UAKhjvRqKiR1"),
   ("Arbitrum", "3V7ZY6muhxaQL5qvntX1CFXJ32W7BxXZTGTwmpH5J4t3")]

/-- supportedUniswapChains = Object.keys(uniswapV3SubgraphMapping). -/
def supportedUniswapChains : List String :=
  uniswapV3SubgraphMapping.map Prod.fst

/-- aerodromeSubgraphMapping: the single Base subgraph. -/
def aerodromeSubgraphMapping : List (String × String) :=
  [("Base", "GENunSHWLBXm59mBSgPzQ8metBEp9YDfdqwFr91Av1UM")]

/-- findUniswapV3Pools of src/index.ts: validates the token arguments, checks
the chain against the supported Uniswap chains, queries the chain's subgraph
(net gives the per-attempt outcomes of the endpoint keyed by subgraph id),
and keeps only pools whose total value locked exceeds 1000. -/
def findUniswapV3Pools (net : String → Nat → AttemptOutcome UniswapV3PoolsResponse)
    (token0 token1 chain : String) : Except String UniswapV3PoolsResult :=
  if token0 = "" || token1 = "" then
    .error "Both token0 and token1 parameters are required"
  else if isBlank token0 || isBlank token1 then
    .error "Token parameters cannot be empty"
  else if !(supportedUniswapChains.contains chain) then
    .error ("Uniswap V3 not supported on " ++ chain ++ ". Supported chains: "
      ++ String.intercalate ", " supportedUniswapChains)
  else
    let subgraphId := (uniswapV3SubgraphMapping.lookup chain).getD ""
    match (querySubgraph (net subgraphId) 3).1 with
    | .error e => .error ("Failed to fetch Uniswap V3 pools: " ++ e)
    | .ok resp =>
      let filteredPools := resp.data.pools.filter
        (fun pool => decide (pool.totalValueLockedUSD > 1000))
      .ok { pools := filteredPools,
            metadata := { chain := chain, totalResults := filteredPools.length } }

/-- findAerodromePools of src/index.ts: validates the token arguments,
queries the fixed Base subgraph, and keeps only pools whose total value
locked exceeds 1000. -/
def findAerodromePools (net : String → Nat → AttemptOutcome AerodromePoolsResponse)
    (token0 token1 : String) : Except String AerodromePoolsResult :=
  if token0 = "" || token1 = "" then
    .error "Both token0 and token1 parameters are required"
  else if isBlank token0 || isBlank token1 then
    .error "Token parameters cannot be empty"
  else
    let subgraphId := (aerodromeSubgraphMapping.lookup "Base").getD ""
    match (querySubgraph (net subgraphId) 3).1 with
    | .error e => .error ("Failed to fetch Aerodrome pools: " ++ e)
    | .ok resp =>
      let filteredPools := resp.data.pools.filter
        (fun pool => decide (pool.totalValueLockedUSD > 1000))
      .ok { pools := filteredPools,
            metadata := { chain := "Base", totalResults := filteredPools.length } }

/-- SESSION_TIMEOUT = 30 * 60 * 1000 milliseconds of idle time. -/
def SESSION_TIMEOUT : Nat := 30 * 60 * 1000

/-- The HTTP adapter's three process-wide registries: the transports map and
servers map are modelled by their key sets (the bound objects carry no state
the claims observe), the sessionTimers map by the pending expiry instant of
each session's setTimeout. -/
structure SessionState where
  transports : List String
  servers : List String
  sessionTimers : List (String × Nat)
deriving DecidableEq

/-- The registries start empty. -/
def initialState : SessionState := ⟨[], [], []⟩

/-- Removal of a key from a registry (the effect of the delete operator). -/
def deleteKey (l : List String) (sid : String) : List String :=
  l.filter (fun x => x != sid)

/-- Removal of a key from the timers map. -/
def deleteTimer (m : List (String × Nat)) (sid : String) : List (String × Nat) :=
  m.filter (fun e => e.1 != sid)

/-- Insertion of a key into a registry (object property assignment: a fresh
key is appended, an existing key's set is unchanged). -/
def registerKey (l : List String) (sid : String) : List String :=
  if sid ∈ l then l else l ++ [sid]

/-- cleanupSession: closes and deletes the session's transport and server
entries and cancels and deletes its idle timer. -/
def cleanupSession (sid : String) (st : SessionState) : SessionState :=
  { transports := deleteKey st.transports sid,
    servers := deleteKey st.servers sid,
    sessionTimers := deleteTimer st.sessionTimers sid }

/-- resetSessionTimer: clears any pending timer for the session and schedules
a fresh one due SESSION_TIMEOUT milliseconds from now. -/
def resetSessionTimer (sid : String) (now : Nat) (st : SessionState) : SessionState :=
  { st with sessionTimers := (sid, now + SESSION_TIMEOUT) :: deleteTimer st.sessionTimers sid }

/-- The onsessioninitialized callback: stores the transport and the server
under the generated session id and starts the idle timer. -/
def sessionInitialized (sid : String) (now : Nat) (st : SessionState) : SessionState :=
  resetSessionTimer sid now
    { st with transports := registerKey st.transports sid,
              servers := registerKey st.servers sid }

/-- JavaScript truthiness of the mcp-session-id header value: absent or
empty-string headers are falsy. -/
def truthy : Option String → Bool
  | none => false
  | some s => s != ""

/-- Outcome of the POST /mcp handler. -/
inductive PostOutcome where
  | routed
  | initPending
  | rejected (status : Nat)
deriving DecidableEq

/-- The POST /mcp handler: a truthy session id registered in transports is
routed to its transport after its idle timer is reset; an absent/empty id
with an initialize body starts a new session (its registration happens later,
in the onsessioninitialized callback); anything else is rejected with 400. -/
def handlePost (sid? : Option String) (isInit : Bool) (now : Nat)
    (st : SessionState) : SessionState × PostOutcome :=
  let sidVal := sid?.getD ""
  if truthy sid? = true ∧ sidVal ∈ st.transports then
    (resetSessionTimer sidVal now st, .routed)
  else if truthy sid? = false ∧ isInit = true then
    (st, .initPending)
  else
    (st, .rejected 400)

/-- Outcome of the shared GET/DELETE /mcp handler. -/
inductive SessionReqOutcome where
  | routed
  | rejected (status : Nat)
deriving DecidableEq

/-- handleSessionRequest, shared by GET /mcp and DELETE /mcp: a missing or
unknown session id is rejected with 400, otherwise the idle timer is reset
and the request routed to the session's transport. -/
def handleSessionRequest (sid? : Option String) (now : Nat)
    (st : SessionState) : SessionState × SessionReqOutcome :=
  let sidVal := sid?.getD ""
  if truthy sid? = false ∨ sidVal ∉ st.transports then (st, .rejected 400)
  else (resetSessionTimer sidVal now st, .routed)

/-- Firing of a scheduled idle timer: the callback runs cleanupSession only
when it is still the session's pending timer (a reset clears superseded
timeouts before they fire). -/
def timerFire (sid : String) (t : Nat) (st : SessionState) : SessionState :=
  if st.sessionTimers.lookup sid = some t then cleanupSession sid st else st

/-- The atomic registry-mutating events of the HTTP adapter. -/
inductive SessionEvent where
  | post (sid? : Option String) (isInit : Bool) (now : Nat)
  | getOrDelete (sid? : Option String) (now : Nat)
  | initDone (sid : String) (now : Nat)
  | closed (sid : String)
  | timerExpired (sid : String) (t : Nat)
  | shutdown
deriving DecidableEq

/-- Effect of one event on the registries: requests run their handler,
initDone is the onsessioninitialized callback, closed the transport.onclose
callback, timerExpired a due idle timer, and shutdown iterates the snapshot
of transport keys cleaning up every session. -/
def step (st : SessionState) : SessionEvent → SessionState
  | .post sid? isInit now => (handlePost sid? isInit now st).1
  | .getOrDelete sid? now => (handleSessionRequest sid? now st).1
  | .initDone sid now => sessionInitialized sid now st
  | .closed sid => cleanupSession sid st
  | .timerExpired sid t => timerFire sid t st
  | .shutdown => st.transports.foldl (fun s sid => cleanupSession sid s) st

/-- The C1 invariant: the transports and servers registries hold exactly the
same session ids. -/
def registriesAligned (st : SessionState) : Prop :=
  ∀ sid, sid ∈ st.transports ↔ sid ∈ st.servers

/-- The mutable world findTokensBySymbols can touch: the backing token-list
files. The function's only effect is the one readFileSync, modelled by
readTokenListW returning the world it was given. -/
structure World where
  tokenLists : TokenFS

/-- World-passing form of readTokenList: a read returns the world unchanged. -/
def readTokenListW (w : World) (listName : String) (chainId : Nat) :
    Except String TokenList × World :=
  (readTokenList w.tokenLists listName chainId, w)

/-- World-passing form of findTokensBySymbols, threading the world through
its single catalog read. -/
def findTokensBySymbolsW (w : World) (symbols : List String)
    (chain list : String) : Except String FindTokensResult × World :=
  if symbols.isEmpty then (.error "Symbols array cannot be empty", w)
  else
    match chainMapping.lookup chain with
    | none => (.error (unsupportedChainMsg chain), w)
    | some chainId =>
      let r := readTokenListW w list chainId
      match r.1 with
      | .error e => (.error e, r.2)
      | .ok tokenList =>
        let acc := findTokensLoop tokenList.tokens symbols
        (.ok { tokens := acc.1,
               notFound := if acc.2.isEmpty then none
                           else some (String.intercalate ", " acc.2) }, r.2)

/-- Sample catalog entry for USDC on Ethereum. -/
def usdcToken : Token :=
  ⟨1, "0xa0b86991c6218b36c1d19d4a2e9eb0ce3606eb48", "USD Coin", "USDC", 6, "usdc.png"⟩

/-- Sample catalog entry for DAI on Ethereum. -/
def daiToken : Token :=
  ⟨1, "0x6b175474e89094c44da98b954eedeac495271d0f", "Dai", "DAI", 18, "dai.png"⟩

/-- Sample Ethereum Coingecko token list. -/
def sampleTokenList : TokenList := ⟨"CoinGecko on Ethereum", [usdcToken, daiToken]⟩

/-- Sample token-lists directory holding only Coingecko.1.json. -/
def sampleTokenFS : TokenFS := fun listName chainId =>
  if listName = "Coingecko" ∧ chainId = 1 then .ok sampleTokenList else .error "ENOENT"

/-- A second directory with the same Coingecko.1.json but different other files. -/
def altTokenFS : TokenFS := fun listName chainId =>
  if listName = "Coingecko" ∧ chainId = 1 then .ok sampleTokenList
  else .error "other backing store"

/-- Catalog entry whose symbol is a single space, exercising the whitespace
guard of findTokensBySymbols. -/
def spaceToken : Token :=
  ⟨1, "0x0000000000000000000000000000000000000001", "Space", " ", 18, "space.png"⟩

/-- Directory whose Coingecko.1.json holds only the space-symbol entry. -/
def spaceTokenFS : TokenFS := fun listName chainId =>
  if listName = "Coingecko" ∧ chainId = 1 then .ok ⟨"space list", [spaceToken]⟩
  else .error "ENOENT"

/-- Sample Chainlink feed. -/
def ethFeed : ChainlinkFeed :=
  ⟨"ETH/USD", "0x5f4eC3Df9cbd43714FE2740f5E3616155c5b8419", "verified"⟩

/-- Sample chain block of feeds.json. -/
def sampleChainData : ChainData := ⟨"https://example.org", [ethFeed]⟩

/-- Sample feeds.json content. -/
def sampleFeedsData : FeedsData := [("ethereum", sampleChainData)]

/-- Sample pool token descriptors. -/
def wethSub : SubgraphToken := ⟨"0xc02a", "WETH", "Wrapped Ether", "18"⟩

def usdcSub : SubgraphToken := ⟨"0xa0b8", "USDC", "USD Coin", "6"⟩

/-- A pool above the liquidity threshold. -/
def richPool : UniswapV3Pool := ⟨"0xpool-rich", "3000", wethSub, usdcSub, 2000, "90000", "12"⟩

/-- A pool at 800 total value locked, below the threshold. -/
def poorPool : UniswapV3Pool := ⟨"0xpool-poor", "500", wethSub, usdcSub, 800, "10", "3"⟩

/-- Network oracle answering every attempt with both sample pools. -/
def sampleNetU : String → Nat → AttemptOutcome UniswapV3PoolsResponse :=
  fun _ _ => .response ⟨⟨[richPool, poorPool]⟩, []⟩

/-- Aerodrome pools above and below the threshold. -/
def richAero : AerodromePool := ⟨"0xaero-rich", 5000, "70000", "9", wethSub, usdcSub⟩

def poorAero : AerodromePool := ⟨"0xaero-poor", 999, "5", "2", wethSub, usdcSub⟩

/-- Network oracle answering every attempt with both Aerodrome pools. -/
def sampleNetA : String → Nat → AttemptOutcome AerodromePoolsResponse :=
  fun _ _ => .response ⟨⟨[richAero, poorAero]⟩, []⟩

/-- The filtered results sampleNetU and sampleNetA lead to. -/
def sampleUniswapResult : UniswapV3PoolsResult := ⟨[richPool], ⟨"Ethereum", 1⟩⟩

def sampleAeroResult : AerodromePoolsResult := ⟨[richAero], ⟨"Base", 1⟩⟩

/-- Network oracle failing the first two attempts and succeeding on the third. -/
def flakyNet : Nat → AttemptOutcome UniswapV3PoolsResponse := fun attempt =>
  if attempt ≤ 2 then .transportError "fetch failed" else .response ⟨⟨[]⟩, []⟩

/-- A registry state holding the single session s1. -/
def exSessionState : SessionState :=
  { transports := ["s1"], servers := ["s1"], sessionTimers := [("s1", 99)] }

theorem findTokensLoop_eq (entries : List Token) (symbols : List String) :
    findTokensLoop entries symbols =
      (symbols.filterMap (matchedToken entries),
       symbols.filter (unmatchedTerm entries)) := by
  induction symbols with
  | nil => rfl
  | cons q rest ih =>
    by_cases hq : isBlank q = true
    · simp [findTokensLoop, ih, matchedToken, unmatchedTerm, hq]
    · cases hf : entries.find? (fun t => symbolMatches t q) with
      | none => simp [findTokensLoop, ih, matchedToken, unmatchedTerm, hq, hf]
      | some t => simp [findTokensLoop, ih, matchedToken, unmatchedTerm, hq, hf]

/-- Full characterization of the success path of findTokensBySymbols. -/
theorem findTokensBySymbols_ok (fs : TokenFS) (symbols : List String)
    (chain list : String) (chainId : Nat) (tl : TokenList)
    (hne : symbols ≠ [])
    (hchain : chainMapping.lookup chain = some chainId)
    (hfs : fs list chainId = .ok tl) :
    findTokensBySymbols fs symbols chain list =
      .ok { tokens := symbols.filterMap (matchedToken tl.tokens),
            notFound := joinedNotFound (symbols.filter (unmatchedTerm tl.tokens)) } := by
  have hne' : symbols.isEmpty = false := by
    cases symbols with
    | nil => exact absurd rfl hne
    | cons a l => rfl
  simp [findTokensBySymbols, readTokenList, hne', hchain, hfs,
    findTokensLoop_eq, joinedNotFound]

theorem findFeedLoopChain_eq (cd : ChainData) (nc : String) (pairs : List String) :
    findFeedLoopChain cd nc pairs =
      (pairs.filterMap (matchedFeedChain cd nc),
       pairs.filter (unmatchedPairChain cd)) := by
  induction pairs with
  | nil => rfl
  | cons p rest ih =>
    by_cases hp : isBlank p = true
    · simp [findFeedLoopChain, ih, matchedFeedChain, unmatchedPairChain, hp]
    · cases hf : cd.feeds.find? (fun f => feedMatches f p) with
      | none => simp [findFeedLoopChain, ih, matchedFeedChain, unmatchedPairChain, hp, hf]
      | some f => simp [findFeedLoopChain, ih, matchedFeedChain, unmatchedPairChain, hp, hf]

/-- Full characterization of the chain-given success path of getFeedAddresses. -/
theorem getFeedAddresses_chain_ok (feedsData : FeedsData) (pairs : List String)
    (c : String) (cd : ChainData)
    (hne : pairs ≠ [])
    (hcd : feedsData.lookup (lowerAscii c) = some cd) :
    getFeedAddresses (.ok feedsData) pairs (some c) =
      .ok { feeds := pairs.filterMap (matchedFeedChain cd (lowerAscii c)),
            notFound := joinedNotFound (pairs.filter (unmatchedPairChain cd)) } := by
  have hne' : pairs.isEmpty = false := by
    cases pairs with
    | nil => exact absurd rfl hne
    | cons a l => rfl
  simp [getFeedAddresses, hne', hcd, findFeedLoopChain_eq, joinedNotFound]

theorem mem_deleteKey {l : List String} {a b : String} :
    a ∈ deleteKey l b ↔ a ∈ l ∧ a ≠ b := by
  simp [deleteKey, List.mem_filter, bne_iff_ne]

theorem mem_registerKey {l : List String} {a b : String} :
    a ∈ registerKey l b ↔ a ∈ l ∨ a = b := by
  unfold registerKey
  split
  · rename_i hb
    constructor
    · exact Or.inl
    · rintro (h | rfl)
      · exact h
      · exact hb
  · simp [List.mem_append]

theorem cleanup_aligned {st : SessionState} (h : registriesAligned st)
    (sid : String) : registriesAligned (cleanupSession sid st) := by
  intro x
  simp only [cleanupSession, mem_deleteKey, h x]

theorem reset_aligned {st : SessionState} (h : registriesAligned st)
    (sid : String) (now : Nat) : registriesAligned (resetSessionTimer sid now st) := by
  intro x
  simpa [resetSessionTimer] using h x

theorem foldl_cleanup_aligned (sids : List String) {st : SessionState}
    (h : registriesAligned st) :
    registriesAligned (sids.foldl (fun s sid => cleanupSession sid s) st) := by
  induction sids generalizing st with
  | nil => exact h
  | cons sid rest ih => exact ih (cleanup_aligned h sid)

theorem step_aligned {st : SessionState} (e : SessionEvent)
    (h : registriesAligned st) : registriesAligned (step st e) := by
  cases e with
  | post sid? isInit now =>
    simp only [step, handlePost]
    split
    · exact reset_aligned h _ _
    · split
      · exact h
      · exact h
  | getOrDelete sid? now =>
    simp only [step, handleSessionRequest]
    split
    · exact h
    · exact reset_aligned h _ _
  | initDone sid now =>
    simp only [step, sessionInitialized]
    refine reset_aligned ?_ _ _
    intro x
    simp only [mem_registerKey, h x]
  | closed sid =>
    simp only [step]
    exact cleanup_aligned h sid
  | timerExpired sid t =>
    simp only [step, timerFire]
    split
    · exact cleanup_aligned h sid
    · exact h
  | shutdown =>
    simp only [step]
    exact foldl_cleanup_aligned st.transports h

theorem lookup_reset_self (st : SessionState) (sid : String) (now : Nat) :
    (resetSessionTimer sid now st).sessionTimers.lookup sid
      = some (now + SESSION_TIMEOUT) := by
  simp [resetSessionTimer, List.lookup]

theorem lookup_deleteTimer_self (m : List (String × Nat)) (sid : String) :
    (deleteTimer m sid).lookup sid = none := by
  induction m with
  | nil => rfl
  | cons e rest ih =>
    obtain ⟨k, v⟩ := e
    by_cases he : k = sid
    · simpa [deleteTimer, he] using ih
    · have hb : (sid == k) = false := beq_eq_false_iff_ne.mpr (Ne.symm he)
      simpa [deleteTimer, he, List.lookup, hb] using ih

theorem querySubgraphLoop_ok {α : Type} (o : Nat → AttemptOutcome α)
    (retries fuel attempt : Nat) (r : SubgraphResponse α)
    (h : runAttempt (o attempt) = .ok r) :
    querySubgraphLoop o retries (fuel + 1) attempt = (.ok r, []) := by
  simp [querySubgraphLoop, h]

theorem querySubgraphLoop_retry {α : Type} (o : Nat → AttemptOutcome α)
    (retries fuel attempt : Nat) (m : String)
    (h : runAttempt (o attempt) = .error m) (hne : attempt ≠ retries) :
    querySubgraphLoop o retries (fuel + 1) attempt =
      ((querySubgraphLoop o retries fuel (attempt + 1)).1,
       1000 * 2 ^ (attempt - 1) :: (querySubgraphLoop o retries fuel (attempt + 1)).2) := by
  simp [querySubgraphLoop, h, hne]

theorem querySubgraphLoop_final {α : Type} (o : Nat → AttemptOutcome α)
    (retries fuel : Nat) (m : String)
    (h : runAttempt (o retries) = .error m) :
    querySubgraphLoop o retries (fuel + 1) retries =
      (.error ("Failed to query subgraph after " ++ toString retries
        ++ " attempts: " ++ m), []) := by
  simp [querySubgraphLoop, h]

/-- C5: a remote pool query makes at most 3 attempts (the result is a
function of the outcomes of attempts 1 to 3 only); a success at attempt k
returns that attempt's data with backoff delays 1000 * 2 ^ (i-1) slept after
each failed attempt i < k (1000 ms after attempt 1, 2000 ms after attempt 2);
three failures surface a RemoteQueryFailed-style error naming the attempt
count and wrapping the last error's message, after both delays. -/
theorem claim_C5_retry_policy {α : Type} (o o' : Nat → AttemptOutcome α) :
    ((∀ i, 1 ≤ i → i ≤ 3 → o i = o' i) → querySubgraph o 3 = querySubgraph o' 3) ∧
    (∀ r, runAttempt (o 1) = .ok r → querySubgraph o 3 = (.ok r, [])) ∧
    (∀ m1 r, runAttempt (o 1) = .error m1 → runAttempt (o 2) = .ok r →
        querySubgraph o 3 = (.ok r, [1000])) ∧
    (∀ m1 m2 r, runAttempt (o 1) = .error m1 → runAttempt (o 2) = .error m2 →
        runAttempt (o 3) = .ok r → querySubgraph o 3 = (.ok r, [1000, 2000])) ∧
    (∀ m1 m2 m3, runAttempt (o 1) = .error m1 → runAttempt (o 2) = .error m2 →
        runAttempt (o 3) = .error m3 →
        querySubgraph o 3 =
          (.error ("Failed to query subgraph after 3 attempts: " ++ m3),
           [1000, 2000])) := by
  refine ⟨?_, ?_, ?_, ?_, ?_⟩
  · intro h
    have h1 : o 1 = o' 1 := h 1 (by norm_num) (by norm_num)
    have h2 : o 2 = o' 2 := h 2 (by norm_num) (by norm_num)
    have h3 : o 3 = o' 3 := h 3 (by norm_num) (by norm_num)
    show querySubgraphLoop o 3 (2 + 1) 1 = querySubgraphLoop o' 3 (2 + 1) 1
    simp only [querySubgraphLoop, h1, h2, h3]
  · intro r h1
    show querySubgraphLoop o 3 (2 + 1) 1 = (.ok r, [])
    exact querySubgraphLoop_ok o 3 2 1 r h1
  · intro m1 r h1 h2
    show querySubgraphLoop o 3 (2 + 1) 1 = (.ok r, [1000])
    rw [querySubgraphLoop_retry o 3 2 1 m1 h1 (by norm_num)]
    have e2 : querySubgraphLoop o 3 2 (1 + 1) = (.ok r, []) :=
      querySubgraphLoop_ok o 3 1 (1 + 1) r h2
    rw [e2]
    norm_num
  · intro m1 m2 r h1 h2 h3
    show querySubgraphLoop o 3 (2 + 1) 1 = (.ok r, [1000, 2000])
    rw [querySubgraphLoop_retry o 3 2 1 m1 h1 (by norm_num)]
    have e2 : querySubgraphLoop o 3 2 (1 + 1) =
        ((querySubgraphLoop o 3 1 (1 + 1 + 1)).1,
         2000 :: (querySubgraphLoop o 3 1 (1 + 1 + 1)).2) := by
      have := querySubgraphLoop_retry o 3 1 (1 + 1) m2 h2 (by norm_num)
      simpa using this
    have e3 : querySubgraphLoop o 3 1 (1 + 1 + 1) = (.ok r, []) :=
      querySubgraphLoop_ok o 3 0 (1 + 1 + 1) r h3
    rw [e2, e3]
    norm_num
  · intro m1 m2 m3 h1 h2 h3
    show querySubgraphLoop o 3 (2 + 1) 1 =
      (.error ("Failed to query subgraph after 3 attempts: " ++ m3), [1000, 2000])
    rw [querySubgraphLoop_retry o 3 2 1 m1 h1 (by norm_num)]
    have e2 : querySubgraphLoop o 3 2 (1 + 1) =
        ((querySubgraphLoop o 3 1 (1 + 1 + 1)).1,
         2000 :: (querySubgraphLoop o 3 1 (1 + 1 + 1)).2) := by
      have := querySubgraphLoop_retry o 3 1 (1 + 1) m2 h2 (by norm_num)
      simpa using this
    have e3 : querySubgraphLoop o 3 1 (1 + 1 + 1) =
        (.error ("Failed to query subgraph after 3 attempts: " ++ m3), []) := by
      have := querySubgraphLoop_final o 3 0 m3 h3
      simpa using this
    rw [e2, e3]
    norm_num

/-- C1: starting from empty registries, after any sequence of session
operations (requests, session initializations, transport closes, idle-timer
expiries, shutdown) the transports and servers registries hold exactly the
same set of session identifiers — a protocol handler and its transport
binding are registered and removed together, never orphaned. -/
theorem claim_C1_registries_aligned (events : List SessionEvent) :
    registriesAligned (events.foldl step initialState) := by
  have key : ∀ (es : List SessionEvent) (st : SessionState),
      registriesAligned st → registriesAligned (es.foldl step st) := by
    intro es
    induction es with
    | nil => exact fun st h => h
    | cons e rest ih => exact fun st h => ih (step st e) (step_aligned e h)
  exact key events initialState (fun sid => Iff.rfl)

/-- C2: the idle timeout is 30 minutes; every POST, GET or DELETE carrying a
known session id resets that session's timer to fire SESSION_TIMEOUT
milliseconds after the request, before routing it; when the pending timer
fires the session is cleaned up — transport and server both deleted, timer
cancelled — and any subsequent request carrying that id is rejected with 400
without touching the state. -/
theorem claim_C2_idle_timeout :
    SESSION_TIMEOUT = 30 * 60 * 1000 ∧
    (∀ (st : SessionState) (sid : String) (isInit : Bool) (now : Nat),
      sid ≠ "" → sid ∈ st.transports →
        handlePost (some sid) isInit now st = (resetSessionTimer sid now st, .routed) ∧
        (resetSessionTimer sid now st).sessionTimers.lookup sid
          = some (now + SESSION_TIMEOUT)) ∧
    (∀ (st : SessionState) (sid : String) (now : Nat),
      sid ≠ "" → sid ∈ st.transports →
        handleSessionRequest (some sid) now st
          = (resetSessionTimer sid now st, .routed)) ∧
    (∀ (st : SessionState) (sid : String) (t : Nat),
      st.sessionTimers.lookup sid = some t →
        timerFire sid t st = cleanupSession sid st ∧
        sid ∉ (cleanupSession sid st).transports ∧
        sid ∉ (cleanupSession sid st).servers ∧
        (cleanupSession sid st).sessionTimers.lookup sid = none) ∧
    (∀ (st : SessionState) (sid : String) (isInit : Bool) (now : Nat),
      sid ≠ "" → sid ∉ st.transports →
        handlePost (some sid) isInit now st = (st, .rejected 400) ∧
        handleSessionRequest (some sid) now st = (st, .rejected 400)) := by
  refine ⟨rfl, ?_, ?_, ?_, ?_⟩
  · intro st sid isInit now hne hmem
    have ht : truthy (some sid) = true := by simp [truthy, hne]
    constructor
    · simp only [handlePost, Option.getD_some]
      rw [if_pos ⟨ht, hmem⟩]
    · exact lookup_reset_self st sid now
  · intro st sid now hne hmem
    have ht : truthy (some sid) = true := by simp [truthy, hne]
    simp only [handleSessionRequest, Option.getD_some]
    rw [if_neg (by simp [ht, hmem])]
  · intro st sid t hlookup
    refine ⟨?_, ?_, ?_, ?_⟩
    · simp only [timerFire]
      rw [if_pos hlookup]
    · simp [cleanupSession, mem_deleteKey]
    · simp [cleanupSession, mem_deleteKey]
    · exact lookup_deleteTimer_self st.sessionTimers sid
  · intro st sid isInit now hne hnmem
    have ht : truthy (some sid) = true := by simp [truthy, hne]
    constructor
    · simp only [handlePost, Option.getD_some]
      rw [if_neg (fun hc => hnmem hc.2), if_neg (by simp [ht])]
    · simp only [handleSessionRequest, Option.getD_some]
      rw [if_pos (Or.inr hnmem)]

/-- C3: a request whose session id is missing or unknown and whose body is
not an initialization request is rejected with status 400 — by the POST
handler and by the shared GET/DELETE handler — leaving the registries and
every other session's timer untouched, creating nothing. -/
theorem claim_C3_invalid_session_rejected (sid? : Option String) (isInit : Bool)
    (now : Nat) (st : SessionState)
    (hmiss : truthy sid? = false ∨ sid?.getD "" ∉ st.transports)
    (hnoninit : isInit = false) :
    handlePost sid? isInit now st = (st, .rejected 400) ∧
    handleSessionRequest sid? now st = (st, .rejected 400) := by
  subst hnoninit
  have hc1 : ¬(truthy sid? = true ∧ sid?.getD "" ∈ st.transports) := by
    rcases hmiss with hm | hm
    · intro hc
      rw [hm] at hc
      exact Bool.false_ne_true hc.1
    · intro hc
      exact hm hc.2
  have hc2 : ¬(truthy sid? = false ∧ false = true) :=
    fun hc => Bool.false_ne_true hc.2
  constructor
  · simp only [handlePost]
    rw [if_neg hc1, if_neg hc2]
  · simp only [handleSessionRequest]
    rw [if_pos hmiss]

/-- C9: findTokensBySymbols is deterministic and effect-free — its
world-passing form returns the world unchanged, agrees with the functional
form on the same backing files, and a second identical call against the
world the first call returned gives an identical result. -/
theorem claim_C9_deterministic (w : World) (symbols : List String)
    (chain list : String) :
    (findTokensBySymbolsW w symbols chain list).2 = w ∧
    (findTokensBySymbolsW w symbols chain list).1
      = findTokensBySymbols w.tokenLists symbols chain list ∧
    (findTokensBySymbolsW ((findTokensBySymbolsW w symbols chain list).2)
        symbols chain list).1
      = (findTokensBySymbolsW w symbols chain list).1 := by
  have h2 : (findTokensBySymbolsW w symbols chain list).2 = w := by
    simp only [findTokensBySymbolsW, readTokenListW]
    split
    · rfl
    · split
      · rfl
      · split <;> rfl
  refine ⟨h2, ?_, by rw [h2]⟩
  simp only [findTokensBySymbolsW, readTokenListW, findTokensBySymbols]
  split
  · rfl
  · split
    · rfl
    · split <;> rfl

/-- C4 counterexample: a whitespace-only query term is sent to notFound even
when a catalog entry's symbol matches it case-insensitively, so notFound is
not exactly the set of terms with no case-insensitive symbol match. -/
theorem claim_C4_counterexample :
    symbolMatches spaceToken " " = true ∧
    findTokensBySymbols spaceTokenFS [" "] "Ethereum" "Coingecko" =
      .ok { tokens := [], notFound := some " " } := ⟨rfl, rfl⟩

/-- C4 (amended): on the success path, the matched entries are, in input
order, for each term non-empty after trimming the first entry whose
lowercased symbol equals the term's; empty/whitespace-only terms and terms
with no match form notFound, comma-joined and absent when empty; matching is
invariant under case changes of a non-whitespace term. -/
theorem claim_C4_find_tokens_characterized (fs : TokenFS) (symbols : List String)
    (chain list : String) (chainId : Nat) (tl : TokenList)
    (hne : symbols ≠ [])
    (hchain : chainMapping.lookup chain = some chainId)
    (hfs : fs list chainId = .ok tl) :
    findTokensBySymbols fs symbols chain list =
      .ok { tokens := symbols.filterMap (matchedToken tl.tokens),
            notFound := joinedNotFound (symbols.filter (unmatchedTerm tl.tokens)) } ∧
    (∀ q q', isBlank q = false → isBlank q' = false → lowerAscii q = lowerAscii q' →
       matchedToken tl.tokens q = matchedToken tl.tokens q') := by
  refine ⟨findTokensBySymbols_ok fs symbols chain list chainId tl hne hchain hfs, ?_⟩
  intro q q' hq hq' hql
  have hfun : (fun t => symbolMatches t q) = (fun t => symbolMatches t q') := by
    funext t
    simp [symbolMatches, hql]
  simp [matchedToken, hq, hq', hfun]

theorem claim_C4_witness :
    findTokensBySymbols sampleTokenFS ["UsDc", "dai", "XYZ"] "Ethereum" "Coingecko" =
      .ok { tokens := [usdcToken, daiToken], notFound := some "XYZ" } := by
  have h := claim_C4_find_tokens_characterized sampleTokenFS ["UsDc", "dai", "XYZ"]
    "Ethereum" "Coingecko" 1 sampleTokenList (by decide) rfl rfl
  exact h.1.trans (by rfl)

/-- C6 counterexample: with an empty symbols list and an unknown chain the
call fails with the empty-array error, not the UnsupportedChain error, so
the unknown-chain failure is not unconditional. -/
theorem claim_C6_counterexample :
    chainMapping.lookup "Solana" = none ∧
    findTokensBySymbols sampleTokenFS [] "Solana" "Coingecko"
      = .error "Symbols array cannot be empty" ∧
    "Symbols array cannot be empty" ≠ unsupportedChainMsg "Solana" := by
  refine ⟨rfl, rfl, by decide⟩

/-- C6 (amended): with a non-empty symbols list, an unknown chain name fails
with the UnsupportedChain error independently of the backing files (no read
is attempted); a known chain proceeds to the catalog keyed by
(list, chainId): the result depends on the files only at that key. -/
theorem claim_C6_unknown_chain (fs fs' : TokenFS) (symbols : List String)
    (chain list : String) (hne : symbols ≠ []) :
    (chainMapping.lookup chain = none →
       findTokensBySymbols fs symbols chain list = .error (unsupportedChainMsg chain) ∧
       findTokensBySymbols fs symbols chain list
         = findTokensBySymbols fs' symbols chain list) ∧
    (∀ chainId, chainMapping.lookup chain = some chainId →
       fs list chainId = fs' list chainId →
       findTokensBySymbols fs symbols chain list
         = findTokensBySymbols fs' symbols chain list) := by
  have hne' : symbols.isEmpty = false := by
    cases symbols with
    | nil => exact absurd rfl hne
    | cons a l => rfl
  constructor
  · intro hnone
    constructor <;> simp [findTokensBySymbols, hne', hnone]
  · intro chainId hsome hagree
    simp [findTokensBySymbols, hne', hsome, readTokenList, hagree]

theorem claim_C6_witness :
    findTokensBySymbols sampleTokenFS ["USDC"] "Solana" "Coingecko" =
      .error (unsupportedChainMsg "Solana") ∧
    findTokensBySymbols sampleTokenFS ["USDC"] "Ethereum" "Coingecko" =
      findTokensBySymbols altTokenFS ["USDC"] "Ethereum" "Coingecko" := by
  refine ⟨((claim_C6_unknown_chain sampleTokenFS sampleTokenFS ["USDC"] "Solana"
    "Coingecko" (by decide)).1 rfl).1, ?_⟩
  exact (claim_C6_unknown_chain sampleTokenFS altTokenFS ["USDC"] "Ethereum"
    "Coingecko" (by decide)).2 1 rfl rfl

/-- C7: every pool a successful Uniswap V3 or Aerodrome query returns has
total value locked strictly greater than 1000, and any pool at or below 1000
is excluded from the returned list. -/
theorem claim_C7_tvl_filter
    (netU : String → Nat → AttemptOutcome UniswapV3PoolsResponse)
    (netA : String → Nat → AttemptOutcome AerodromePoolsResponse)
    (t0 t1 chain a0 a1 : String)
    (ru : UniswapV3PoolsResult) (ra : AerodromePoolsResult)
    (hu : findUniswapV3Pools netU t0 t1 chain = .ok ru)
    (ha : findAerodromePools netA a0 a1 = .ok ra) :
    (∀ p ∈ ru.pools, p.totalValueLockedUSD > 1000) ∧
    (∀ p, p.totalValueLockedUSD ≤ 1000 → p ∉ ru.pools) ∧
    (∀ p ∈ ra.pools, p.totalValueLockedUSD > 1000) ∧
    (∀ p, p.totalValueLockedUSD ≤ 1000 → p ∉ ra.pools) := by
  have hu' : ∀ p ∈ ru.pools, p.totalValueLockedUSD > 1000 := by
    simp only [findUniswapV3Pools] at hu
    split at hu
    · exact Except.noConfusion hu
    · split at hu
      · exact Except.noConfusion hu
      · split at hu
        · exact Except.noConfusion hu
        · split at hu
          · exact Except.noConfusion hu
          · injection hu with h
            subst h
            intro p hp
            dsimp only at hp
            have hdec := List.of_mem_filter hp
            simpa using hdec
  have ha' : ∀ p ∈ ra.pools, p.totalValueLockedUSD > 1000 := by
    simp only [findAerodromePools] at ha
    split at ha
    · exact Except.noConfusion ha
    · split at ha
      · exact Except.noConfusion ha
      · split at ha
        · exact Except.noConfusion ha
        · injection ha with h
          subst h
          intro p hp
          dsimp only at hp
          have hdec := List.of_mem_filter hp
          simpa using hdec
  exact ⟨hu',
    fun p hle hp => absurd (hu' p hp) (not_lt.mpr hle),
    ha',
    fun p hle hp => absurd (ha' p hp) (not_lt.mpr hle)⟩

theorem claim_C7_witness :
    richPool.totalValueLockedUSD > 1000 ∧
    poorPool ∉ sampleUniswapResult.pools ∧
    poorAero ∉ sampleAeroResult.pools := by
  have h := claim_C7_tvl_filter sampleNetU sampleNetA "WETH" "USDC" "Ethereum"
    "WETH" "USDC" sampleUniswapResult sampleAeroResult (by rfl) (by rfl)
  exact ⟨h.1 richPool (by decide), h.2.1 poorPool (by norm_num [poorPool]),
    h.2.2.2 poorAero (by norm_num [poorAero])⟩

/-- C8: with a non-empty term list, a resolvable chain and a readable
catalog, findTokensBySymbols and getFeedAddresses succeed whatever the
individual terms look like: empty or whitespace-only terms are unmatched —
landing in notFound next to the unknown terms — and select no entry, and the
matched entries are returned in the same successful response. -/
theorem claim_C8_malformed_terms (fs : TokenFS) (symbols : List String)
    (chain list : String) (chainId : Nat) (tl : TokenList)
    (feedsData : FeedsData) (pairs : List String) (c : String) (cd : ChainData)
    (hsne : symbols ≠ []) (hchain : chainMapping.lookup chain = some chainId)
    (hfs : fs list chainId = .ok tl)
    (hpne : pairs ≠ []) (hcd : feedsData.lookup (lowerAscii c) = some cd) :
    (findTokensBySymbols fs symbols chain list =
       .ok { tokens := symbols.filterMap (matchedToken tl.tokens),
             notFound := joinedNotFound (symbols.filter (unmatchedTerm tl.tokens)) } ∧
     ∀ s ∈ symbols, isBlank s = true →
       unmatchedTerm tl.tokens s = true ∧ matchedToken tl.tokens s = none) ∧
    (getFeedAddresses (.ok feedsData) pairs (some c) =
       .ok { feeds := pairs.filterMap (matchedFeedChain cd (lowerAscii c)),
             notFound := joinedNotFound (pairs.filter (unmatchedPairChain cd)) } ∧
     ∀ p ∈ pairs, isBlank p = true →
       unmatchedPairChain cd p = true ∧ matchedFeedChain cd (lowerAscii c) p = none) := by
  refine ⟨⟨findTokensBySymbols_ok fs symbols chain list chainId tl hsne hchain hfs, ?_⟩,
    ⟨getFeedAddresses_chain_ok feedsData pairs c cd hpne hcd, ?_⟩⟩
  · intro s _ hs
    exact ⟨by simp [unmatchedTerm, hs], by simp [matchedToken, hs]⟩
  · intro p _ hp
    exact ⟨by simp [unmatchedPairChain, hp], by simp [matchedFeedChain, hp]⟩

theorem claim_C8_witness :
    findTokensBySymbols sampleTokenFS ["USDC", " ", "XYZ"] "Ethereum" "Coingecko" =
      .ok { tokens := [usdcToken], notFound := some " , XYZ" } ∧
    getFeedAddresses (.ok sampleFeedsData) ["ETH/USD", ""] (some "Ethereum") =
      .ok { feeds := [⟨"ETH/USD", "0x5f4eC3Df9cbd43714FE2740f5E3616155c5b8419",
                       "verified", "ethereum"⟩],
            notFound := some "" } := by
  have h := claim_C8_malformed_terms sampleTokenFS ["USDC", " ", "XYZ"] "Ethereum"
    "Coingecko" 1 sampleTokenList sampleFeedsData ["ETH/USD", ""] "Ethereum"
    sampleChainData (by decide) rfl rfl (by decide) rfl
  exact ⟨h.1.1.trans (by rfl), h.2.1.trans (by rfl)⟩

/-- C10: the empty query list is rejected up front by both lookups — with the
empty-array error, independently of the backing files, so no catalog or
feed-registry read happens — rather than answered with zero matches. -/
theorem claim_C10_empty_rejected (fs fs' : TokenFS) (chain list : String)
    (rd rd' : Except String FeedsData) (chainOpt : Option String) :
    findTokensBySymbols fs [] chain list = .error "Symbols array cannot be empty" ∧
    findTokensBySymbols fs [] chain list = findTokensBySymbols fs' [] chain list ∧
    getFeedAddresses rd [] chainOpt = .error "Pairs array cannot be empty" ∧
    getFeedAddresses rd [] chainOpt = getFeedAddresses rd' [] chainOpt :=
  ⟨rfl, rfl, rfl, rfl⟩

theorem claim_C2_witness :
    (resetSessionTimer "s1" 5 exSessionState).sessionTimers.lookup "s1"
      = some (5 + SESSION_TIMEOUT) ∧
    "s1" ∉ (cleanupSession "s1" exSessionState).transports ∧
    handlePost (some "s1") false 7 (cleanupSession "s1" exSessionState)
      = (cleanupSession "s1" exSessionState, .rejected 400) := by
  refine ⟨?_, ?_, ?_⟩
  · exact (claim_C2_idle_timeout.2.1 exSessionState "s1" false 5 (by decide)
      (by decide)).2
  · exact (claim_C2_idle_timeout.2.2.2.1 exSessionState "s1" 99 (by decide)).2.1
  · exact (claim_C2_idle_timeout.2.2.2.2 (cleanupSession "s1" exSessionState) "s1"
      false 7 (by decide) (by decide)).1

theorem claim_C3_witness :
    handlePost (some "ghost") false 7 exSessionState
      = (exSessionState, .rejected 400) ∧
    handleSessionRequest (some "ghost") 7 exSessionState
      = (exSessionState, .rejected 400) :=
  claim_C3_invalid_session_rejected (some "ghost") false 7 exSessionState
    (by decide) rfl

theorem claim_C5_witness :
    querySubgraph flakyNet 3 = (.ok ⟨⟨[]⟩, []⟩, [1000, 2000]) :=
  (claim_C5_retry_policy flakyNet flakyNet).2.2.2.1 "fetch failed" "fetch failed"
    ⟨⟨[]⟩, []⟩ rfl rfl rfl

end ChainsData
